import Mathlib

/-!
Verification of the TodoManager core of `todolist_server.py`.

The Python source is shallowly embedded: each manager operation becomes a
pure Lean function.  Exogenous effects are made explicit parameters:
the current wall-clock value (`now`), the state of the backing file
(`FileState`), and whether a disk write / file copy succeeds
(`saveOk` / `copyOk`).  A Python value of `None` in an optional field or
parameter is modelled as `Option.none`.  Results of shape
`{"success": true, ...payload}` / `{"success": false, "errors": [...]}` are
modelled as `Except (List String) payload`.
-/

namespace TodoMCP

/-- A task record, with the fields as constructed by `TodoManager.add_todo`
(lines 179-199 of the source).  `due_date := none` models the Python value
`None` stored under the `"due_date"` key. -/
structure Todo where
  id : Int
  title : String
  description : String
  due_date : Option String
  status : String
  priority : String
  tags : List String
  created_at : String
  updated_at : String
deriving Repr, DecidableEq

/-- Source constant `VALID_STATUSES` (line 27). -/
def VALID_STATUSES : List String := ["pending", "in_progress", "done", "cancelled"]

/-- Source constant `VALID_PRIORITIES` (line 30). -/
def VALID_PRIORITIES : List String := ["low", "medium", "high", "critical"]

/-- Days in a month, with Gregorian leap years, as `datetime` checks. -/
def daysInMonth (y m : Nat) : Nat :=
  if m = 2 then (if y % 4 = 0 && (y % 100 ≠ 0 || y % 400 = 0) then 29 else 28)
  else if m = 4 || m = 6 || m = 9 || m = 11 then 30
  else 31

/-- Numeric value of an ASCII digit character. -/
def digitVal (c : Char) : Nat := c.toNat - 48

/-- The `%Y` field of CPython strptime: exactly four decimal digits
(regex `\d\d\d\d`), returning the year value.  CPython also admits
non-ASCII Unicode decimal digits in `\d`; the embedding models the ASCII
digits. -/
def year_field (cs : List Char) : Option Nat :=
  match cs with
  | [a, b, c, d] =>
    if a.isDigit && b.isDigit && c.isDigit && d.isDigit then
      some (1000 * digitVal a + 100 * digitVal b + 10 * digitVal c + digitVal d)
    else none
  | _ => none

/-- The `%m` field of CPython strptime: regex `1[0-2]|0[1-9]|[1-9]`,
returning the month value (always 1..12). -/
def month_field (cs : List Char) : Option Nat :=
  match cs with
  | ['1', c] => if '0' ≤ c && c ≤ '2' then some (10 + digitVal c) else none
  | ['0', c] => if '1' ≤ c && c ≤ '9' then some (digitVal c) else none
  | [c] => if '1' ≤ c && c ≤ '9' then some (digitVal c) else none
  | _ => none

/-- The `%d` field of CPython strptime: regex
`3[01]|[12]\d|0[1-9]|[1-9]| [1-9]` (note the space-padded single-digit
alternative), returning the day value.  As for the year, the `\d` of the
`[12]\d` alternative is modelled as an ASCII digit. -/
def day_field (cs : List Char) : Option Nat :=
  match cs with
  | ['3', c] => if c = '0' || c = '1' then some (30 + digitVal c) else none
  | ['1', c] => if c.isDigit then some (10 + digitVal c) else none
  | ['2', c] => if c.isDigit then some (20 + digitVal c) else none
  | ['0', c] => if '1' ≤ c && c ≤ '9' then some (digitVal c) else none
  | [' ', c] => if '1' ≤ c && c ≤ '9' then some (digitVal c) else none
  | [c] => if '1' ≤ c && c ≤ '9' then some (digitVal c) else none
  | _ => none

/-- Embeds `TodoManager._validate_date` (lines 118-127): empty strings are
accepted; otherwise the string must parse with
`strptime(date_str, "%Y-%m-%d")`.  The format's fields cannot match a `-`,
so the parse is the split on `-` into exactly three parts, each fully
matched by its field regex, followed by the `datetime` constructor checks:
year at least `MINYEAR` (1) and day within the month (month is 1..12 by the
regex; year is at most 9999 by the four-digit form). -/
def validate_date (s : String) : Bool :=
  if s = "" then true
  else match s.splitOn "-" with
    | [ys, ms, ds] =>
      match year_field ys.toList, month_field ms.toList, day_field ds.toList with
      | some y, some m, some d => 1 ≤ y && 1 ≤ d && d ≤ daysInMonth y m
      | _, _, _ => false
    | _ => false

/-- Embeds `TodoManager._validate_todo` (lines 129-159).  Each rule mirrors one
`if` of the source; Python truthiness of a string value ("falsy" iff empty)
is written out explicitly.  The `tags` isinstance check cannot fail in the
typed embedding, so it contributes no error. -/
def validate_todo (t : Todo) : List String :=
  (if t.title = "" then ["Title is required"]
   else if t.title.length > 100 then ["Title must be less than 100 characters"]
   else []) ++
  (if t.description.length > 1000 then ["Description must be less than 1000 characters"]
   else []) ++
  (if (t.due_date.getD "") ≠ "" && !validate_date (t.due_date.getD "") then
     ["Due date must be in YYYY-MM-DD format"]
   else []) ++
  (if t.status ≠ "" && !(VALID_STATUSES.contains t.status) then
     ["Status must be one of: pending, in_progress, done, cancelled"]
   else []) ++
  (if t.priority ≠ "" && !(VALID_PRIORITIES.contains t.priority) then
     ["Priority must be one of: low, medium, high, critical"]
   else [])

/-- Embeds `TodoManager._serialize_todo` (lines 161-173).  In the typed embedding
every field is already present, so serialization rebuilds the record
field by field. -/
def serialize_todo (t : Todo) : Todo :=
  { id := t.id, title := t.title, description := t.description,
    due_date := t.due_date, status := t.status, priority := t.priority,
    tags := t.tags, created_at := t.created_at, updated_at := t.updated_at }

/-- Python `max(l, default=0)`. -/
def max_default (l : List Int) : Int :=
  match l with
  | [] => 0
  | x :: xs => xs.foldl max x

/-- The id assigned by `add_todo` (line 198):
`max([t["id"] for t in todos], default=0) + 1`. -/
def next_id (todos : List Todo) : Int :=
  max_default (todos.map (·.id)) + 1

/-- The candidate record built by `add_todo` before the id is assigned
(lines 179-188).  The placeholder id `0` is not read by `validate_todo`,
matching the Python dict that has no `"id"` key at validation time.
`tags.getD []` is Python `tags or []`. -/
def mk_new_todo (title description : String) (due_date : Option String)
    (status priority : String) (tags : Option (List String)) (now : String) : Todo :=
  { id := 0, title := title, description := description, due_date := due_date,
    status := status, priority := priority, tags := tags.getD [],
    created_at := now, updated_at := now }

/-- Embeds `TodoManager.add_todo` (lines 175-208), acting on the freshly loaded
record list.  Returns the operation result together with the final persisted
store (the input list when nothing was saved). -/
def add_todo (loaded : List Todo) (title description : String)
    (due_date : Option String) (status priority : String)
    (tags : Option (List String)) (now : String) (saveOk : Bool) :
    Except (List String) Todo × List Todo :=
  let todo := mk_new_todo title description due_date status priority tags now
  let errs := validate_todo todo
  if errs ≠ [] then (.error errs, loaded)
  else
    let todo := { todo with id := next_id loaded }
    if saveOk then (.ok (serialize_todo todo), loaded ++ [todo])
    else (.error ["Failed to save todo"], loaded)

/-- The index search of `update_todo` (lines 293-297): first index whose
record has the given id. -/
def find_todo_index (tid : Int) : List Todo → Option Nat
  | [] => none
  | t :: ts => if t.id = tid then some 0 else (find_todo_index tid ts).map (· + 1)

/-- The field merge of `update_todo` (lines 303-320): a parameter that is
`None` leaves the stored field unchanged; `updated_at` is always refreshed. -/
def merge_todo (old : Todo) (title description due_date status priority : Option String)
    (tags : Option (List String)) (now : String) : Todo :=
  { old with
    title := title.getD old.title,
    description := description.getD old.description,
    due_date := match due_date with | none => old.due_date | some d => some d,
    status := status.getD old.status,
    priority := priority.getD old.priority,
    tags := tags.getD old.tags,
    updated_at := now }

/-- Embeds `TodoManager.update_todo` (lines 285-334).  The inner `none` case of the
list lookup is unreachable (the index returned by `find_todo_index` is always
in range) and repeats the not-found failure. -/
def update_todo (todos : List Todo) (tid : Int)
    (title description due_date status priority : Option String)
    (tags : Option (List String)) (now : String) (saveOk : Bool) :
    Except (List String) Todo × List Todo :=
  match find_todo_index tid todos with
  | none => (.error ["Todo " ++ toString tid ++ " not found"], todos)
  | some i =>
    match todos[i]? with
    | none => (.error ["Todo " ++ toString tid ++ " not found"], todos)
    | some old =>
      let u := merge_todo old title description due_date status priority tags now
      let errs := validate_todo u
      if errs ≠ [] then (.error errs, todos)
      else if saveOk then (.ok (serialize_todo u), todos.set i u)
      else (.error ["Failed to save todo"], todos)

/-- Embeds `TodoManager.complete_todo` (lines 336-338): literally
`update_todo(todo_id, status="done")`. -/
def complete_todo (todos : List Todo) (tid : Int) (now : String) (saveOk : Bool) :
    Except (List String) Todo × List Todo :=
  update_todo todos tid none none none (some "done") none none now saveOk

/-- Embeds `TodoManager.delete_todo` (lines 340-355). -/
def delete_todo (todos : List Todo) (tid : Int) (saveOk : Bool) :
    Except (List String) String × List Todo :=
  let new_todos := todos.filter (fun t => !(t.id == tid))
  if new_todos.length = todos.length then
    (.error ["Todo " ++ toString tid ++ " not found"], todos)
  else if saveOk then (.ok ("Todo " ++ toString tid ++ " deleted"), new_todos)
  else (.error ["Failed to save todos"], todos)

/-- Embeds `TodoManager.batch_delete_todos` (lines 357-373). -/
def batch_delete_todos (todos : List Todo) (tids : List Int) (saveOk : Bool) :
    Except (List String) String × List Todo :=
  let new_todos := todos.filter (fun t => !(tids.contains t.id))
  let deleted := todos.length - new_todos.length
  if deleted = 0 then (.error ["No matching todos found"], todos)
  else if saveOk then (.ok (toString deleted ++ " todos deleted"), new_todos)
  else (.error ["Failed to save todos"], todos)

/-- The mutable fields of `TodoManager` (lines 39-40): the cached record list
and the time of the last load, both initially `None`.  Times are wall-clock
seconds. -/
structure CacheState where
  todos_cache : Option (List Todo)
  last_load_time : Option Nat
deriving Repr, DecidableEq

/-- The observable state of the backing file at a load: absent, present but
not parseable as JSON, or present with a parsed record list. -/
inductive FileState
  | absent
  | corrupt
  | good (todos : List Todo)
deriving Repr, DecidableEq

/-- The cache-hit test of `_load_todos` (lines 47-49): not forced, a cached
copy exists, a load time exists, and fewer than 5 seconds have passed. -/
def cache_hit (force_reload : Bool) (st : CacheState) (now : Nat) : Bool :=
  !force_reload && st.todos_cache.isSome &&
    (match st.last_load_time with
     | none => false
     | some t => now - t < 5)

/-- What a load returns and does: the record list handed to the caller, the
cache state afterwards, and whether `_create_backup(suffix="corrupted")` was
invoked during the load. -/
structure LoadOut where
  result : List Todo
  cache : CacheState
  corrupt_backup : Bool
deriving Repr, DecidableEq

/-- Embeds `TodoManager._load_todos` (lines 42-77).  The function never raises: a
missing file, a corrupt file, and any other read failure all reset the cache
to empty and return the empty list; only the corrupt-file branch invokes the
backup with the `"corrupted"` suffix. -/
def load_todos (force_reload : Bool) (st : CacheState) (fs : FileState)
    (now : Nat) : LoadOut :=
  if cache_hit force_reload st now then
    { result := st.todos_cache.getD [], cache := st, corrupt_backup := false }
  else
    match fs with
    | .absent => { result := [], cache := ⟨some [], some now⟩, corrupt_backup := false }
    | .good todos => { result := todos, cache := ⟨some todos, some now⟩, corrupt_backup := false }
    | .corrupt => { result := [], cache := ⟨some [], some now⟩, corrupt_backup := true }

/-- Embeds `TodoManager._save_todos` (lines 79-94).  `writeOk` is whether the open
and write of the backing file succeed.  The pre-write backup (line 83) never
raises (`_create_backup` catches its own failures), so the only failure exit
is the write itself, which happens before the cache is touched: on failure
the cache state is returned unchanged. -/
def save_todos (todos : List Todo) (st : CacheState) (now : Nat)
    (writeOk : Bool) : Bool × CacheState :=
  if writeOk then (true, ⟨some todos, some now⟩) else (false, st)

/-- The backup file name built by `_create_backup` (lines 101-104). -/
def backup_filename (timestamp : String) (suffix : Option String) : String :=
  "todos_backup_" ++ timestamp ++
    (match suffix with | some s => "_" ++ s | none => "") ++ ".json"

/-- Embeds `TodoManager._create_backup` (lines 96-116): `None` (here `none`) when
the backing file does not exist, otherwise the backup path on a successful
copy and `None` when the copy fails. -/
def create_backup_internal (file_exists : Bool) (timestamp : String)
    (suffix : Option String) (copyOk : Bool) : Option String :=
  if !file_exists then none
  else if copyOk then some (backup_filename timestamp suffix) else none

/-- Embeds `TodoManager.create_backup` (lines 375-382), the manual backup
operation: wraps `_create_backup(suffix="manual")`, turning a falsy backup
path into the failure result. -/
def create_backup (file_exists : Bool) (timestamp : String) (copyOk : Bool) :
    Except (List String) String :=
  match create_backup_internal file_exists timestamp (some "manual") copyOk with
  | some p => .ok p
  | none => .error ["Failed to create backup"]

/-- A Python value used as a sort key by `list_todos`: an int, a str, or
`None`. -/
inductive PyVal
  | vint (i : Int)
  | vstr (s : String)
  | vnone
deriving Repr, DecidableEq

def PyVal.isInt : PyVal → Bool
  | .vint _ => true
  | _ => false

def PyVal.isStr : PyVal → Bool
  | .vstr _ => true
  | _ => false

/-- A total order on `PyVal` whose restriction to two ints or two strs is
Python's `<=`.  Comparisons across constructors never influence any modelled
behavior: the sort is only evaluated when all keys are ints or all keys are
strs (see `sortable`), and otherwise the Python sort raises `TypeError`,
modelled as `none`.  Totality of the relation is needed by the stability
lemmas of `List.mergeSort`. -/
def pvLe : PyVal → PyVal → Bool
  | .vnone, _ => true
  | .vint _, .vnone => false
  | .vint a, .vint b => decide (a ≤ b)
  | .vint _, .vstr _ => true
  | .vstr _, .vnone => false
  | .vstr _, .vint _ => false
  | .vstr a, .vstr b => decide (a ≤ b)

/-- Embeds `x.get(sort_by, "")` of line 258, for the sort fields admitted by
`list_todos`.  A record whose `due_date` is the Python value `None` yields
`None` as the key (the `.get` default applies only to absent keys, and
records carry the key). -/
def sort_key (sb : String) (t : Todo) : PyVal :=
  if sb = "id" then .vint t.id
  else if sb = "title" then .vstr t.title
  else if sb = "due_date" then
    (match t.due_date with | some d => .vstr d | none => .vnone)
  else if sb = "status" then .vstr t.status
  else if sb = "priority" then .vstr t.priority
  else if sb = "created_at" then .vstr t.created_at
  else if sb = "updated_at" then .vstr t.updated_at
  else .vstr ""

/-- The comparison used for the stable sort of line 258: ascending by key,
and for `reverse=True` the flipped comparison, which (like CPython's
`reverse=True`) keeps elements with equal keys in their original order. -/
def sort_pred (sb : String) (rev : Bool) (a b : Todo) : Bool :=
  if rev then pvLe (sort_key sb b) (sort_key sb a)
  else pvLe (sort_key sb a) (sort_key sb b)

/-- Whether the Python sort of line 258 completes without raising: with at
most one element no comparison happens; otherwise every pair of keys that
gets compared must be orderable, which for the key values produced here
means all keys are ints or all keys are strs (any `None` key or mixed
int/str keys raise `TypeError`). -/
def sortable (sb : String) (l : List Todo) : Bool :=
  decide (l.length ≤ 1) ||
    (l.map (sort_key sb)).all PyVal.isInt ||
    (l.map (sort_key sb)).all PyVal.isStr

/-- Embeds the sort call `filtered_todos.sort(key=..., reverse=reverse)`
(lines 257-258): `none` models the sort raising `TypeError`, which escapes
`list_todos` unhandled. -/
def py_sort (sb : String) (rev : Bool) (l : List Todo) : Option (List Todo) :=
  if sortable sb l then some (l.mergeSort (sort_pred sb rev)) else none

/-- Normalizes Python string truthiness for the optional filter parameters
of `list_todos`: `None` and the empty string both mean "no filter". -/
def opt_str (o : Option String) : Option String :=
  match o with
  | none => none
  | some s => if s = "" then none else some s

/-- The status filter of `list_todos` (lines 219-222). -/
def status_filter (todos : List Todo) (status : Option String) :
    Except (List String) (List Todo) :=
  match opt_str status with
  | none => .ok todos
  | some s =>
    if VALID_STATUSES.contains s then .ok (todos.filter (fun t => t.status == s))
    else .error ["Invalid status. Must be one of: pending, in_progress, done, cancelled"]

/-- The priority filter of `list_todos` (lines 224-227). -/
def priority_filter (todos : List Todo) (priority : Option String) :
    Except (List String) (List Todo) :=
  match opt_str priority with
  | none => .ok todos
  | some p =>
    if VALID_PRIORITIES.contains p then .ok (todos.filter (fun t => t.priority == p))
    else .error ["Invalid priority. Must be one of: low, medium, high, critical"]

/-- Substring search on character lists: does `needle` occur contiguously? -/
def sub_search (needle : List Char) : List Char → Bool
  | [] => needle.isEmpty
  | c :: rest => needle.isPrefixOf (c :: rest) || sub_search needle rest

/-- Python `needle in hay` on strings. -/
def str_contains (hay needle : String) : Bool :=
  sub_search needle.toList hay.toList

/-- The search filter of `list_todos` (lines 229-233): case-insensitive
substring match against title or description. -/
def search_filter (todos : List Todo) (search : Option String) : List Todo :=
  match opt_str search with
  | none => todos
  | some s =>
    todos.filter (fun t =>
      str_contains t.title.toLower s.toLower ||
      str_contains t.description.toLower s.toLower)

/-- The tag filter of `list_todos` (lines 235-236). -/
def tag_filter (todos : List Todo) (tag : Option String) : List Todo :=
  match opt_str tag with
  | none => todos
  | some tg => todos.filter (fun t => t.tags.contains tg)

/-- Python truthiness of the stored `due_date` value: a non-`None`,
non-empty string. -/
def due_truthy (t : Todo) : Bool :=
  match t.due_date with
  | none => false
  | some d => !(d == "")

/-- The due-date filter of `list_todos` (lines 238-250), compared against
today's date string. -/
def due_date_filter_fn (todos : List Todo) (dueF : Option String)
    (today : String) : Except (List String) (List Todo) :=
  match opt_str dueF with
  | none => .ok todos
  | some f =>
    if f = "overdue" then
      .ok (todos.filter (fun t => due_truthy t && decide ((t.due_date.getD "") < today)))
    else if f = "today" then
      .ok (todos.filter (fun t => t.due_date == some today))
    else if f = "upcoming" then
      .ok (todos.filter (fun t => due_truthy t && decide (today < t.due_date.getD "")))
    else if f = "no_date" then
      .ok (todos.filter (fun t => !(due_truthy t)))
    else
      .error ["Invalid due_date_filter. Must be one of: overdue, today, upcoming, no_date"]

/-- The filter pipeline of `list_todos` (lines 218-250), with the early
error returns of the source. -/
def filter_todos (todos : List Todo)
    (status priority search tag dueF : Option String) (today : String) :
    Except (List String) (List Todo) :=
  match status_filter todos status with
  | .error e => .error e
  | .ok l1 =>
    match priority_filter l1 priority with
    | .error e => .error e
    | .ok l2 => due_date_filter_fn (tag_filter (search_filter l2 search) tag) dueF today

/-- Source list `valid_sort_fields` of line 253. -/
def valid_sort_fields : List String :=
  ["id", "title", "due_date", "status", "priority", "created_at", "updated_at"]

/-- The successful payload of `list_todos` (lines 267-273). -/
structure ListOk where
  todos : List Todo
  total_count : Nat
  limit : Nat
  offset : Nat
deriving Repr, DecidableEq

/-- Embeds `TodoManager.list_todos` (lines 210-273) on the loaded record list.
The outer `Option` is `none` exactly when the sort raises an unhandled
`TypeError`; `limit` and `offset` are taken non-negative, where the Python
slice `[offset:offset+limit]` is `drop`/`take`. -/
def list_todos (todos : List Todo)
    (status priority search tag dueF : Option String)
    (sort_by sort_order : String) (limit offset : Nat) (today : String) :
    Option (Except (List String) ListOk) :=
  match filter_todos todos status priority search tag dueF today with
  | .error e => some (.error e)
  | .ok filtered =>
    if !(valid_sort_fields.contains sort_by) then
      some (.error ["Invalid sort_by. Must be one of: id, title, due_date, status, priority, created_at, updated_at"])
    else
      let rev := sort_order.toLower == "desc"
      match py_sort sort_by rev filtered with
      | none => none
      | some sorted_l =>
        some (.ok { todos := ((sorted_l.drop offset).take limit).map serialize_todo,
                    total_count := sorted_l.length,
                    limit := limit, offset := offset })

/-- The store's id-uniqueness invariant: no two records share an id. -/
def ids_nodup (l : List Todo) : Prop := (l.map (·.id)).Nodup

instance ids_nodup_decidable (l : List Todo) : Decidable (ids_nodup l) :=
  inferInstanceAs (Decidable ((l.map (fun t : Todo => t.id)).Nodup))

/-! ### Helper lemmas -/

theorem serialize_todo_eq (t : Todo) : serialize_todo t = t := rfl

theorem le_foldl_max (l : List Int) (a : Int) : a ≤ l.foldl max a := by
  induction l generalizing a with
  | nil => simp
  | cons x xs ih => exact le_trans (le_max_left a x) (ih (max a x))

theorem mem_le_foldl_max (l : List Int) (a x : Int) (hx : x ∈ l) :
    x ≤ l.foldl max a := by
  induction l generalizing a with
  | nil => cases hx
  | cons y ys ih =>
    rcases List.mem_cons.mp hx with h | h
    · subst h
      exact le_trans (le_max_right a x) (le_foldl_max ys (max a x))
    · exact ih (max a y) h

theorem mem_le_max_default (l : List Int) (x : Int) (hx : x ∈ l) :
    x ≤ max_default l := by
  cases l with
  | nil => cases hx
  | cons y ys =>
    rcases List.mem_cons.mp hx with h | h
    · subst h; exact le_foldl_max ys x
    · exact mem_le_foldl_max ys y x h

theorem id_lt_next_id (todos : List Todo) (t : Todo) (ht : t ∈ todos) :
    t.id < next_id todos := by
  have := mem_le_max_default (todos.map (·.id)) t.id (List.mem_map_of_mem _ ht)
  unfold next_id
  omega

theorem find_todo_index_some (tid : Int) (todos : List Todo) (i : Nat)
    (h : find_todo_index tid todos = some i) :
    ∃ old, todos[i]? = some old ∧ old.id = tid ∧ old ∈ todos := by
  induction todos generalizing i with
  | nil => simp [find_todo_index] at h
  | cons t ts ih =>
    by_cases ht : t.id = tid
    · simp [find_todo_index, ht] at h
      subst h
      exact ⟨t, by simp, ht, by simp⟩
    · simp [find_todo_index, ht] at h
      rcases h with ⟨j, hj, hji⟩
      rcases ih j hj with ⟨old, h1, h2, h3⟩
      exact ⟨old, by simpa [← hji] using h1, h2, by simp [h3]⟩

theorem find_todo_index_none (tid : Int) (todos : List Todo)
    (h : find_todo_index tid todos = none) : ∀ t ∈ todos, t.id ≠ tid := by
  induction todos with
  | nil => intro t ht; cases ht
  | cons t ts ih =>
    by_cases htid : t.id = tid
    · simp [find_todo_index, htid] at h
    · simp [find_todo_index, htid] at h
      intro u hu
      rcases List.mem_cons.mp hu with h' | h'
      · subst h'; exact htid
      · exact ih h u h'

theorem map_set_eq {α β : Type} (f : α → β) (l : List α) (i : Nat) (u old : α)
    (h : l[i]? = some old) (hf : f u = f old) : (l.set i u).map f = l.map f := by
  induction l generalizing i with
  | nil => simp at h
  | cons x xs ih =>
    cases i with
    | zero =>
      simp at h
      subst h
      simp [hf]
    | succ j =>
      simp at h
      simp [ih j h]

theorem update_todo_map_id (todos : List Todo) (tid : Int)
    (title description due_date status priority : Option String)
    (tags : Option (List String)) (now : String) (saveOk : Bool) :
    (update_todo todos tid title description due_date status priority tags now saveOk).2.map (·.id)
      = todos.map (·.id) := by
  cases hf : find_todo_index tid todos with
  | none => simp [update_todo, hf]
  | some i =>
    cases hg : todos[i]? with
    | none => simp [update_todo, hf, hg]
    | some old =>
      simp only [update_todo, hf, hg]
      split
      · rfl
      · split
        · simpa using map_set_eq (fun t : Todo => t.id) todos i
            (merge_todo old title description due_date status priority tags now) old hg
            (show (merge_todo old title description due_date status priority tags now).id = old.id from rfl)
        · rfl

theorem update_todo_map_created (todos : List Todo) (tid : Int)
    (title description due_date status priority : Option String)
    (tags : Option (List String)) (now : String) (saveOk : Bool) :
    (update_todo todos tid title description due_date status priority tags now saveOk).2.map (·.created_at)
      = todos.map (·.created_at) := by
  cases hf : find_todo_index tid todos with
  | none => simp [update_todo, hf]
  | some i =>
    cases hg : todos[i]? with
    | none => simp [update_todo, hf, hg]
    | some old =>
      simp only [update_todo, hf, hg]
      split
      · rfl
      · split
        · simpa using map_set_eq (fun t : Todo => t.created_at) todos i
            (merge_todo old title description due_date status priority tags now) old hg
            (show (merge_todo old title description due_date status priority tags now).created_at = old.created_at from rfl)
        · rfl

theorem ids_nodup_filter (p : Todo → Bool) (todos : List Todo)
    (h : ids_nodup todos) : ids_nodup (todos.filter p) :=
  List.Nodup.sublist (List.Sublist.map _ (List.filter_sublist todos)) h

theorem ids_nodup_add (todos : List Todo) (h : ids_nodup todos)
    (title description : String) (due_date : Option String)
    (status priority : String) (tags : Option (List String)) (now : String)
    (saveOk : Bool) :
    ids_nodup (add_todo todos title description due_date status priority tags now saveOk).2 := by
  unfold add_todo
  dsimp only
  split
  · exact h
  · split
    · unfold ids_nodup at h ⊢
      rw [List.map_append]
      refine List.Nodup.append h (List.nodup_singleton _) ?_
      intro x hx hx'
      simp only [List.map_cons, List.map_nil, List.mem_singleton] at hx'
      rcases List.mem_map.mp hx with ⟨t, ht, rfl⟩
      have := id_lt_next_id todos t ht
      rw [hx'] at this
      omega
    · exact h

/-- Useful sample records for witnesses. -/
def tA : Todo :=
  ⟨1, "alpha", "", none, "pending", "medium", [], "2025-01-01T00:00:00", "2025-01-01T00:00:00"⟩

def tB : Todo :=
  ⟨2, "beta", "d", some "2025-03-04", "done", "high", ["x"], "2025-01-02T00:00:00", "2025-01-02T00:00:00"⟩

/-! ### Claims -/

/-- Claim C1: ID uniqueness is an invariant of the store.  If no two records
of the loaded store share an id, then the store left behind by each of
`add_todo`, `update_todo`, `complete_todo`, `delete_todo` and
`batch_delete_todos` (success or failure) again has pairwise distinct ids. -/
theorem claim_C1 (todos : List Todo) (h : ids_nodup todos)
    (title description : String) (due_date : Option String)
    (status priority : String) (tags : Option (List String)) (now : String) (ok1 : Bool)
    (tid2 : Int) (ut2 ud2 udd2 us2 up2 : Option String) (utg2 : Option (List String))
    (now2 : String) (ok2 : Bool)
    (tid3 : Int) (now3 : String) (ok3 : Bool)
    (tid4 : Int) (ok4 : Bool)
    (tids5 : List Int) (ok5 : Bool) :
    ids_nodup (add_todo todos title description due_date status priority tags now ok1).2 ∧
    ids_nodup (update_todo todos tid2 ut2 ud2 udd2 us2 up2 utg2 now2 ok2).2 ∧
    ids_nodup (complete_todo todos tid3 now3 ok3).2 ∧
    ids_nodup (delete_todo todos tid4 ok4).2 ∧
    ids_nodup (batch_delete_todos todos tids5 ok5).2 := by
  refine ⟨ids_nodup_add todos h title description due_date status priority tags now ok1,
    ?_, ?_, ?_, ?_⟩
  · unfold ids_nodup
    rw [update_todo_map_id]
    exact h
  · unfold complete_todo ids_nodup
    rw [update_todo_map_id]
    exact h
  · unfold delete_todo
    dsimp only
    split
    · exact h
    · split
      · exact ids_nodup_filter _ todos h
      · exact h
  · unfold batch_delete_todos
    dsimp only
    split
    · exact h
    · split
      · exact ids_nodup_filter _ todos h
      · exact h

theorem claim_C1_witness :
    ids_nodup (add_todo [tA, tB] "c" "" none "pending" "medium" none "T" true).2 ∧
    ids_nodup (update_todo [tA, tB] 1 (some "t") none none none none none "T" true).2 ∧
    ids_nodup (complete_todo [tA, tB] 2 "T" true).2 ∧
    ids_nodup (delete_todo [tA, tB] 1 true).2 ∧
    ids_nodup (batch_delete_todos [tA, tB] [2, 9] true).2 :=
  claim_C1 [tA, tB] (by decide) "c" "" none "pending" "medium" none "T" true
    1 (some "t") none none none none none "T" true 2 "T" true 1 true [2, 9] true

/-- Claim C2: a successful `add_todo` assigns the id
`max(existing ids, default 0) + 1`: on the empty store the first id is 1,
every id already in the store is strictly below the assigned id (interior
gaps are never reused), and every `add_todo` call that returns a success
returns exactly the candidate record with id `next_id loaded`, appended to
the loaded store. -/
theorem claim_C2 :
    next_id ([] : List Todo) = 1 ∧
    (∀ (todos : List Todo) (t : Todo), t ∈ todos → t.id < next_id todos) ∧
    (∀ (loaded : List Todo) (title description : String) (due_date : Option String)
       (status priority : String) (tags : Option (List String)) (now : String)
       (saveOk : Bool) (r : Todo) (store : List Todo),
       add_todo loaded title description due_date status priority tags now saveOk
         = (.ok r, store) →
       r = { mk_new_todo title description due_date status priority tags now with
               id := next_id loaded } ∧
       store = loaded ++ [r]) := by
  refine ⟨rfl, id_lt_next_id, ?_⟩
  intro loaded title description due_date status priority tags now saveOk r store h
  unfold add_todo at h
  dsimp only at h
  split at h
  · simp at h
  · split at h
    · rw [Prod.mk.injEq] at h
      obtain ⟨h1, h2⟩ := h
      rw [Except.ok.injEq] at h1
      subst h1
      exact ⟨rfl, h2.symm⟩
    · simp at h

theorem claim_C2_witness :
    next_id ([] : List Todo) = 1 ∧
    tB.id < next_id [tA, tB] ∧
    (({ mk_new_todo "c" "" none "pending" "medium" none "T" with
          id := next_id [tA, tB] } : Todo)
       = { mk_new_todo "c" "" none "pending" "medium" none "T" with
             id := next_id [tA, tB] } ∧
     [tA, tB] ++ [({ mk_new_todo "c" "" none "pending" "medium" none "T" with
                       id := next_id [tA, tB] } : Todo)]
       = [tA, tB] ++ [{ mk_new_todo "c" "" none "pending" "medium" none "T" with
                          id := next_id [tA, tB] }]) :=
  ⟨claim_C2.1, claim_C2.2.1 [tA, tB] tB (by decide),
   claim_C2.2.2 [tA, tB] "c" "" none "pending" "medium" none "T" true
     { mk_new_todo "c" "" none "pending" "medium" none "T" with id := next_id [tA, tB] }
     ([tA, tB] ++ [{ mk_new_todo "c" "" none "pending" "medium" none "T" with
                       id := next_id [tA, tB] }])
     (by rfl)⟩

/-- Claim C3: a failed persist returns failure and leaves the cached record
list and the cached load timestamp unchanged; at the operation level, every
`add_todo` call whose save would fail returns a structured failure — never a
success — and leaves the store exactly as loaded. -/
theorem claim_C3 :
    (∀ (todos : List Todo) (st : CacheState) (now : Nat),
       save_todos todos st now false = (false, st)) ∧
    (∀ (loaded : List Todo) (title description : String) (due_date : Option String)
       (status priority : String) (tags : Option (List String)) (now : String),
       (add_todo loaded title description due_date status priority tags now false).2
         = loaded ∧
       ∃ errs, (add_todo loaded title description due_date status priority tags now false).1
         = .error errs) := by
  refine ⟨fun todos st now => rfl, ?_⟩
  intro loaded title description due_date status priority tags now
  unfold add_todo
  dsimp only
  split
  · exact ⟨rfl, _, rfl⟩
  · exact ⟨rfl, ["Failed to save todo"], rfl⟩

/-- Claim C4: a load that reads the backing file (no cache hit) and finds
unparseable content invokes the backup with the `"corrupted"` suffix, resets
the cache to the empty list with the current load time, and returns the
empty record list as a normal (non-raising) result. -/
theorem claim_C4 (force_reload : Bool) (st : CacheState) (now : Nat)
    (h : cache_hit force_reload st now = false) :
    load_todos force_reload st .corrupt now =
      { result := [], cache := ⟨some [], some now⟩, corrupt_backup := true } := by
  unfold load_todos
  simp [h]

theorem claim_C4_witness :
    load_todos true ⟨some [tA], some 0⟩ .corrupt 3 =
      { result := [], cache := ⟨some [], some 3⟩, corrupt_backup := true } :=
  claim_C4 true ⟨some [tA], some 0⟩ 3 (by decide)

/-- Claim C7 is false on the code: a cache-served load returns the cached
copy without touching `_last_load_time`.  Concretely, with a cache loaded at
time 0 and a load at time 3 (a cache hit), the timestamp after the load is
still 0, not the current time 3 as the claim asserts. -/
theorem claim_C7_counterexample :
    cache_hit false ⟨some [], some 0⟩ 3 = true ∧
    ¬ ((load_todos false ⟨some [], some 0⟩ (.good []) 3).cache.last_load_time = some 3) := by
  decide

/-- Claim C7, amended: a load served from the cache leaves the whole cache
state — cached copy and cached load timestamp — unchanged; only loads that
go to disk refresh the timestamp. -/
theorem claim_C7 (force_reload : Bool) (st : CacheState) (fs : FileState)
    (now : Nat) (h : cache_hit force_reload st now = true) :
    load_todos force_reload st fs now =
      { result := st.todos_cache.getD [], cache := st, corrupt_backup := false } := by
  unfold load_todos
  simp [h]

theorem claim_C7_witness :
    load_todos false ⟨some [tA], some 0⟩ (.good []) 3 =
      { result := (some [tA]).getD [], cache := ⟨some [tA], some 0⟩,
        corrupt_backup := false } :=
  claim_C7 false ⟨some [tA], some 0⟩ (.good []) 3 (by decide)

/-- Claim C8 is false on the code for the manual backup operation: when the
backing file does not exist, `_create_backup` indeed returns `None`, but
`create_backup` (the manual operation with suffix `manual`) converts that
`None` into the failure result rather than "nothing, not an error". -/
theorem claim_C8_counterexample :
    create_backup_internal false "20250101_000000" (some "manual") true = none ∧
    create_backup false "20250101_000000" true =
      .error ["Failed to create backup"] := by
  exact ⟨rfl, rfl⟩

/-- Claim C8, amended: when the backing file does not exist, the internal
backup helper is a no-op returning nothing regardless of suffix; the manual
backup operation, however, reports that as the failure result
`["Failed to create backup"]`. -/
theorem claim_C8 (timestamp : String) (suffix : Option String) (copyOk : Bool) :
    create_backup_internal false timestamp suffix copyOk = none ∧
    create_backup false timestamp copyOk = .error ["Failed to create backup"] :=
  ⟨rfl, rfl⟩

theorem find_todo_index_none_of (tid : Int) (todos : List Todo)
    (h : ∀ t ∈ todos, t.id ≠ tid) : find_todo_index tid todos = none := by
  induction todos with
  | nil => rfl
  | cons t ts ih =>
    have ht : t.id ≠ tid := h t (by simp)
    simp [find_todo_index, ht, ih (fun u hu => h u (by simp [hu]))]

/-- Claim C9: `complete_todo tid` is the very call
`update_todo tid (status := "done")`, so both return the same result and
final store; on success the record has status `done` and a refreshed
`updated_at` while its title, description, tags, id and `created_at` are
those of the matched record; when no record has the id, both return the
identical not-found failure with the store unchanged. -/
theorem claim_C9 :
    (∀ (todos : List Todo) (tid : Int) (now : String) (saveOk : Bool),
       complete_todo todos tid now saveOk =
         update_todo todos tid none none none (some "done") none none now saveOk) ∧
    (∀ (todos : List Todo) (tid : Int) (now : String) (saveOk : Bool)
       (r : Todo) (store : List Todo),
       complete_todo todos tid now saveOk = (.ok r, store) →
       r.status = "done" ∧ r.updated_at = now ∧
       ∃ old, old ∈ todos ∧ old.id = tid ∧ r.id = old.id ∧ r.title = old.title ∧
         r.description = old.description ∧ r.tags = old.tags ∧
         r.created_at = old.created_at) ∧
    (∀ (todos : List Todo) (tid : Int) (now : String) (saveOk : Bool),
       (∀ t ∈ todos, t.id ≠ tid) →
       complete_todo todos tid now saveOk =
         (.error ["Todo " ++ toString tid ++ " not found"], todos)) := by
  refine ⟨fun todos tid now saveOk => rfl, ?_, ?_⟩
  · intro todos tid now saveOk r store h
    unfold complete_todo update_todo at h
    cases hf : find_todo_index tid todos with
    | none =>
      rw [hf] at h
      simp at h
    | some i =>
      simp only [hf] at h
      obtain ⟨old, hgo, hid, hmem⟩ := find_todo_index_some tid todos i hf
      simp only [hgo] at h
      split at h
      · simp at h
      · split at h
        · rw [Prod.mk.injEq] at h
          obtain ⟨h1, h2⟩ := h
          rw [Except.ok.injEq] at h1
          subst h1
          exact ⟨rfl, rfl, old, hmem, hid, rfl, rfl, rfl, rfl, rfl⟩
        · simp at h
  · intro todos tid now saveOk hnone
    unfold complete_todo update_todo
    rw [find_todo_index_none_of tid todos hnone]

theorem claim_C9_witness :
    ({ tA with status := "done", updated_at := "T2" } : Todo).status = "done" ∧
    ({ tA with status := "done", updated_at := "T2" } : Todo).updated_at = "T2" ∧
    ∃ old, old ∈ [tA] ∧ old.id = 1 ∧
      ({ tA with status := "done", updated_at := "T2" } : Todo).id = old.id ∧
      ({ tA with status := "done", updated_at := "T2" } : Todo).title = old.title ∧
      ({ tA with status := "done", updated_at := "T2" } : Todo).description = old.description ∧
      ({ tA with status := "done", updated_at := "T2" } : Todo).tags = old.tags ∧
      ({ tA with status := "done", updated_at := "T2" } : Todo).created_at = old.created_at :=
  claim_C9.2.1 [tA] 1 "T2" true { tA with status := "done", updated_at := "T2" }
    [{ tA with status := "done", updated_at := "T2" }] rfl

/-- Claim C10: in every `update_todo` call a parameter that is `None` leaves
the corresponding stored field unchanged, the stored `due_date` can never go
back from a set value to `None`, and `id` and `created_at` of every record
are never modified (on failure paths because the store is untouched, on the
success path because the merge copies them). -/
theorem claim_C10 (todos : List Todo) (tid : Int)
    (title description due_date status priority : Option String)
    (tags : Option (List String)) (now : String) (saveOk : Bool) :
    (update_todo todos tid title description due_date status priority tags now saveOk).2.map (fun t : Todo => t.id)
      = todos.map (fun t : Todo => t.id) ∧
    (update_todo todos tid title description due_date status priority tags now saveOk).2.map (fun t : Todo => t.created_at)
      = todos.map (fun t : Todo => t.created_at) ∧
    (∀ (r : Todo) (store : List Todo),
       update_todo todos tid title description due_date status priority tags now saveOk
         = (.ok r, store) →
       ∃ old, old ∈ todos ∧ old.id = tid ∧
         (title = none → r.title = old.title) ∧
         (description = none → r.description = old.description) ∧
         (due_date = none → r.due_date = old.due_date) ∧
         (status = none → r.status = old.status) ∧
         (priority = none → r.priority = old.priority) ∧
         (tags = none → r.tags = old.tags) ∧
         r.id = old.id ∧ r.created_at = old.created_at ∧ r.updated_at = now ∧
         (old.due_date ≠ none → r.due_date ≠ none)) := by
  refine ⟨update_todo_map_id todos tid title description due_date status priority tags now saveOk,
    update_todo_map_created todos tid title description due_date status priority tags now saveOk, ?_⟩
  intro r store h
  unfold update_todo at h
  cases hf : find_todo_index tid todos with
  | none =>
    rw [hf] at h
    simp at h
  | some i =>
    simp only [hf] at h
    obtain ⟨old, hgo, hid, hmem⟩ := find_todo_index_some tid todos i hf
    simp only [hgo] at h
    split at h
    · simp at h
    · split at h
      · rw [Prod.mk.injEq] at h
        obtain ⟨h1, h2⟩ := h
        rw [Except.ok.injEq] at h1
        subst h1
        refine ⟨old, hmem, hid, fun e => by subst e; rfl, fun e => by subst e; rfl,
          fun e => by subst e; rfl, fun e => by subst e; rfl, fun e => by subst e; rfl,
          fun e => by subst e; rfl, rfl, rfl, rfl, ?_⟩
        intro hne
        cases due_date with
        | none => exact hne
        | some d => exact fun hco => Option.noConfusion hco
      · simp at h

theorem claim_C10_witness :
    ∃ old, old ∈ [tA] ∧ old.id = 1 ∧
      ((none : Option String) = none →
        ({ tA with status := "done", updated_at := "T9" } : Todo).title = old.title) ∧
      ((none : Option String) = none →
        ({ tA with status := "done", updated_at := "T9" } : Todo).description = old.description) ∧
      ((none : Option String) = none →
        ({ tA with status := "done", updated_at := "T9" } : Todo).due_date = old.due_date) ∧
      ((some "done" : Option String) = none →
        ({ tA with status := "done", updated_at := "T9" } : Todo).status = old.status) ∧
      ((none : Option String) = none →
        ({ tA with status := "done", updated_at := "T9" } : Todo).priority = old.priority) ∧
      ((none : Option (List String)) = none →
        ({ tA with status := "done", updated_at := "T9" } : Todo).tags = old.tags) ∧
      ({ tA with status := "done", updated_at := "T9" } : Todo).id = old.id ∧
      ({ tA with status := "done", updated_at := "T9" } : Todo).created_at = old.created_at ∧
      ({ tA with status := "done", updated_at := "T9" } : Todo).updated_at = "T9" ∧
      (old.due_date ≠ none →
        ({ tA with status := "done", updated_at := "T9" } : Todo).due_date ≠ none) :=
  (claim_C10 [tA] 1 none none none (some "done") none none "T9" true).2.2
    { tA with status := "done", updated_at := "T9" }
    [{ tA with status := "done", updated_at := "T9" }] rfl

/-! ### Order lemmas for the sort comparison -/

theorem pvLe_refl (a : PyVal) : pvLe a a = true := by
  cases a <;> simp [pvLe]

theorem pvLe_trans (a b c : PyVal) (h1 : pvLe a b = true) (h2 : pvLe b c = true) :
    pvLe a c = true := by
  cases a <;> cases b <;> cases c <;> simp_all [pvLe] <;> exact le_trans h1 h2

theorem pvLe_total (a b : PyVal) : (pvLe a b || pvLe b a) = true := by
  cases a <;> cases b <;> simp [pvLe] <;> exact le_total _ _

theorem sort_pred_trans (sb : String) (rev : Bool) (a b c : Todo)
    (h1 : sort_pred sb rev a b = true) (h2 : sort_pred sb rev b c = true) :
    sort_pred sb rev a c = true := by
  cases rev
  · simp only [sort_pred, Bool.false_eq_true, if_false] at h1 h2 ⊢
    exact pvLe_trans _ _ _ h1 h2
  · simp only [sort_pred, if_true] at h1 h2 ⊢
    exact pvLe_trans _ _ _ h2 h1

theorem sort_pred_total (sb : String) (rev : Bool) (a b : Todo) :
    (sort_pred sb rev a b || sort_pred sb rev b a) = true := by
  cases rev
  · simpa [sort_pred] using pvLe_total (sort_key sb a) (sort_key sb b)
  · simpa [sort_pred] using pvLe_total (sort_key sb b) (sort_key sb a)

theorem sort_pred_of_key_eq (sb : String) (rev : Bool) (a b : Todo)
    (h : sort_key sb a = sort_key sb b) : sort_pred sb rev a b = true := by
  cases rev <;> simp [sort_pred, h, pvLe_refl]

/-- Stability of the embedded sort, in filter form: the subsequence of
records with any fixed key value is exactly the input subsequence, i.e.
ties keep their pre-sort relative order. -/
theorem mergeSort_filter_key (le : Todo → Todo → Bool)
    (htrans : ∀ a b c, le a b = true → le b c = true → le a c = true)
    (htotal : ∀ a b, (le a b || le b a) = true)
    (p : Todo → Bool) (hp : ∀ a b, p a = true → p b = true → le a b = true)
    (l : List Todo) :
    (l.mergeSort le).filter p = l.filter p := by
  have hpair : (l.filter p).Pairwise (fun a b => le a b = true) :=
    List.pairwise_of_forall_mem_list (fun a ha b hb =>
      hp a b (List.mem_filter.mp ha).2 (List.mem_filter.mp hb).2)
  have hsub : List.Sublist (l.filter p) (l.mergeSort le) :=
    List.sublist_mergeSort htrans htotal hpair (List.filter_sublist l)
  have hsub2 : List.Sublist (l.filter p) ((l.mergeSort le).filter p) := by
    have h1 := List.Sublist.filter p hsub
    have h2 : (l.filter p).filter p = l.filter p := by
      rw [List.filter_filter]
      simp
    rwa [h2] at h1
  have hlen : ((l.mergeSort le).filter p).length = (l.filter p).length :=
    ((List.mergeSort_perm l le).filter p).length_eq
  exact (List.Sublist.eq_of_length hsub2 hlen.symm).symm

/-! ### The filter pipeline only removes records -/

theorem status_filter_sublist (todos : List Todo) (status : Option String)
    (l : List Todo) (h : status_filter todos status = .ok l) : List.Sublist l todos := by
  unfold status_filter at h
  cases ho : opt_str status with
  | none =>
    simp only [ho, Except.ok.injEq] at h
    subst h
    exact List.Sublist.refl todos
  | some s =>
    simp only [ho] at h
    split at h
    · rw [Except.ok.injEq] at h
      subst h
      exact List.filter_sublist todos
    · simp at h

theorem priority_filter_sublist (todos : List Todo) (priority : Option String)
    (l : List Todo) (h : priority_filter todos priority = .ok l) : List.Sublist l todos := by
  unfold priority_filter at h
  cases ho : opt_str priority with
  | none =>
    simp only [ho, Except.ok.injEq] at h
    subst h
    exact List.Sublist.refl todos
  | some s =>
    simp only [ho] at h
    split at h
    · rw [Except.ok.injEq] at h
      subst h
      exact List.filter_sublist todos
    · simp at h

theorem search_filter_sublist (todos : List Todo) (search : Option String) :
    List.Sublist (search_filter todos search) todos := by
  unfold search_filter
  cases ho : opt_str search with
  | none => simp only [ho]; exact List.Sublist.refl todos
  | some s => simp only [ho]; exact List.filter_sublist todos

theorem tag_filter_sublist (todos : List Todo) (tag : Option String) :
    List.Sublist (tag_filter todos tag) todos := by
  unfold tag_filter
  cases ho : opt_str tag with
  | none => simp only [ho]; exact List.Sublist.refl todos
  | some tg => simp only [ho]; exact List.filter_sublist todos

theorem due_filter_sublist (todos : List Todo) (dueF : Option String)
    (today : String) (l : List Todo)
    (h : due_date_filter_fn todos dueF today = .ok l) : List.Sublist l todos := by
  unfold due_date_filter_fn at h
  cases ho : opt_str dueF with
  | none =>
    simp only [ho, Except.ok.injEq] at h
    subst h
    exact List.Sublist.refl todos
  | some f =>
    simp only [ho] at h
    split at h
    · rw [Except.ok.injEq] at h
      subst h
      exact List.filter_sublist todos
    · split at h
      · rw [Except.ok.injEq] at h
        subst h
        exact List.filter_sublist todos
      · split at h
        · rw [Except.ok.injEq] at h
          subst h
          exact List.filter_sublist todos
        · split at h
          · rw [Except.ok.injEq] at h
            subst h
            exact List.filter_sublist todos
          · simp at h

theorem filter_todos_sublist (todos : List Todo)
    (status priority search tag dueF : Option String) (today : String)
    (l : List Todo)
    (h : filter_todos todos status priority search tag dueF today = .ok l) :
    List.Sublist l todos := by
  unfold filter_todos at h
  cases h1 : status_filter todos status with
  | error e => rw [h1] at h; simp at h
  | ok l1 =>
    rw [h1] at h
    dsimp only at h
    cases h2 : priority_filter l1 priority with
    | error e => rw [h2] at h; simp at h
    | ok l2 =>
      rw [h2] at h
      dsimp only at h
      have h5 := due_filter_sublist _ dueF today l h
      exact (((h5.trans (tag_filter_sublist _ tag)).trans
        (search_filter_sublist l2 search)).trans
        (priority_filter_sublist l1 priority l2 h2)).trans
        (status_filter_sublist todos status l1 h1)

theorem sortable_of_sublist (sb : String) {sub todos : List Todo}
    (hs : List.Sublist sub todos)
    (h : ((todos.map (sort_key sb)).all PyVal.isInt
          || (todos.map (sort_key sb)).all PyVal.isStr) = true) :
    sortable sb sub = true := by
  have hall : ∀ p : PyVal → Bool, (todos.map (sort_key sb)).all p = true →
      (sub.map (sort_key sb)).all p = true := by
    intro p hp
    rw [List.all_eq_true] at hp ⊢
    intro x hx
    exact hp x (List.Sublist.subset (List.Sublist.map _ hs) hx)
  rcases Bool.or_eq_true_iff.mp h with h' | h'
  · simp [sortable, hall _ h']
  · simp [sortable, hall _ h']

/-- Claim C5 is false on the code: for a record created without a due date
the stored value is null, `x.get("due_date", "")` returns that null (the
default applies only to absent keys), and sorting two such records raises an
unhandled `TypeError`.  Concretely, over two records with null `due_date`,
`list_todos(sort_by="due_date")` does not complete with a result. -/
theorem claim_C5_counterexample :
    sort_key "due_date" tA = PyVal.vnone ∧
    list_todos [tA, { tA with id := 2, title := "beta" }] none none none none none
      "due_date" "asc" 100 0 "2025-01-01" = none := by
  exact ⟨rfl, rfl⟩

/-- Claim C5, amended: for a valid `sort_by`, whenever the sort keys of the
records are all ints or all strings — in particular no record carries a null
value in the sort field — every `list_todos` call completes with a result
(a success or a structured failure, never an escaping fault).  A null sort
key (e.g. an unset `due_date`) is not replaced by the empty string: with two
or more such records the sort comparison raises and the call yields no
result. -/
theorem claim_C5 (todos : List Todo)
    (status priority search tag dueF : Option String)
    (sb sort_order : String) (limit offset : Nat) (today : String)
    (hsb : valid_sort_fields.contains sb = true)
    (hkeys : ((todos.map (sort_key sb)).all PyVal.isInt
              || (todos.map (sort_key sb)).all PyVal.isStr) = true) :
    (list_todos todos status priority search tag dueF sb sort_order limit offset today).isSome
      = true := by
  unfold list_todos
  cases hft : filter_todos todos status priority search tag dueF today with
  | error e => simp
  | ok filtered =>
    have hsl := filter_todos_sublist todos status priority search tag dueF today filtered hft
    have hso := sortable_of_sublist sb hsl hkeys
    have hmem : sb ∈ valid_sort_fields := by simpa using hsb
    simp [hmem, py_sort, hso]

theorem claim_C5_witness :
    valid_sort_fields.contains "due_date" = true ∧
    (list_todos [tB] none none none none none "due_date" "asc" 100 0 "2025-01-01").isSome
      = true :=
  ⟨by decide,
   claim_C5 [tB] none none none none none "due_date" "asc" 100 0 "2025-01-01"
     (by decide) (by decide)⟩

/-- Claim C6: the sort of `list_todos` is stable for both orders — whenever
the sort completes, the subsequence of records whose sort key equals any
fixed value is exactly the input subsequence, for ascending and for
descending order alike (`desc` does not reverse ties) — and the unfiltered
`list_todos` output is the page of that stable sort. -/
theorem claim_C6 :
    (∀ (sb : String) (rev : Bool) (l sorted_l : List Todo),
       py_sort sb rev l = some sorted_l →
       ∀ v : PyVal,
         sorted_l.filter (fun t => sort_key sb t == v)
           = l.filter (fun t => sort_key sb t == v)) ∧
    (∀ (todos : List Todo) (sb sort_order : String) (limit offset : Nat) (today : String),
       valid_sort_fields.contains sb = true →
       sortable sb todos = true →
       list_todos todos none none none none none sb sort_order limit offset today =
         some (.ok
           { todos := (((todos.mergeSort (sort_pred sb (sort_order.toLower == "desc"))).drop offset).take limit).map serialize_todo,
             total_count := todos.length,
             limit := limit, offset := offset })) := by
  constructor
  · intro sb rev l sorted_l h v
    unfold py_sort at h
    split at h
    · rw [Option.some.injEq] at h
      subst h
      refine mergeSort_filter_key (sort_pred sb rev) (sort_pred_trans sb rev)
        (sort_pred_total sb rev) _ ?_ l
      intro a b ha hb
      have ha' : sort_key sb a = v := by simpa using ha
      have hb' : sort_key sb b = v := by simpa using hb
      exact sort_pred_of_key_eq sb rev a b (ha'.trans hb'.symm)
    · simp at h
  · intro todos sb sort_order limit offset today hsb hsort
    have hmem : sb ∈ valid_sort_fields := by simpa using hsb
    unfold list_todos filter_todos status_filter priority_filter search_filter
      tag_filter due_date_filter_fn opt_str
    simp [hmem, py_sort, hsort, List.length_mergeSort]

theorem claim_C6_witness :
    ([tB, tA].mergeSort (sort_pred "id" false)).filter
        (fun t => sort_key "id" t == PyVal.vint 1)
      = [tB, tA].filter (fun t => sort_key "id" t == PyVal.vint 1) ∧
    list_todos [tB, tA] none none none none none "id" "desc" 3 0 "D" =
      some (.ok
        { todos := ((([tB, tA].mergeSort (sort_pred "id" (("desc").toLower == "desc"))).drop 0).take 3).map serialize_todo,
          total_count := [tB, tA].length,
          limit := 3, offset := 0 }) :=
  ⟨claim_C6.1 "id" false [tB, tA] ([tB, tA].mergeSort (sort_pred "id" false)) rfl
     (PyVal.vint 1),
   claim_C6.2 [tB, tA] "id" "desc" 3 0 "D" (by decide) (by decide)⟩

end TodoMCP
